import Mathlib

/-!
Verification model of the Place Discovery Aggregation Engine of nearbyspots-qr,
i.e. the `POST /api/search-nearby` handler and its helpers in the server file
(src/unnamed/part_004, lines 64-105, 321-449, 1394-2043).  The server file
registers a second, older copy of the same route later in the file; Express
dispatches to the first registered handler, which is the one modelled here.

Modelling conventions:
* JavaScript numbers are modelled as `ℚ` (coordinates, ratings, raw distances)
  and `ℤ` (radii, rounded distances).  `Math.round` is Mathlib's `round`
  (both compute `⌊x + 1/2⌋`).
* `calculateDistance` (haversine on IEEE doubles) is kept abstract as a
  parameter of type `DistFn`; every claim depends on it only through
  comparisons.  Witnesses instantiate it with the executable `flatDist`.
* Optional / possibly-absent JS object fields are `Option`; JS truthiness of
  strings and numbers is made explicit (`""`, `0` and absent are falsy).
* Network calls are replaced by their observed responses (`ProviderResponse`),
  one per sub-query, passed to the handler as input.  A thrown JS exception is
  an `Except`/`Option` error value.
-/

set_option maxRecDepth 8000

namespace NearbySpots

/-- A WGS-84 coordinate pair, `{latitude, longitude}`. -/
structure Location where
  latitude : ℚ
  longitude : ℚ
  deriving DecidableEq

/-- Signature of `calculateDistance(lat1, lon1, lat2, lon2)` (part_004 line 322):
the haversine great-circle distance in meters.  The trigonometric float
computation is abstracted; the pipeline uses it only through comparisons. -/
abbrev DistFn := ℚ → ℚ → ℚ → ℚ → ℚ

/-- A concrete stand-in distance function used by witnesses and
counterexamples: a scaled taxicab distance in degrees.  It plays the role of
the haversine `calculateDistance` at concrete inputs. -/
def flatDist : DistFn := fun lat1 lon1 lat2 lon2 =>
  111 * (|lat2 - lat1| + |lon2 - lon1|)

/-- One photo reference object `{name, widthPx, heightPx}`. -/
structure Photo where
  name : String
  widthPx : ℕ
  heightPx : ℕ
  deriving DecidableEq

/-- A loosely-typed place object as the handler manipulates it (JS duck
typing).  Raw provider records carry `displayName?.text`, `formattedAddress`,
`location`, `rating`, `userRatingCount`, `photos`, `websiteUri`, `id` (the
requested field mask), and any of them except `id` may be absent.  The
text-search conversion (e.g. part_004 lines 1616-1647) produces objects that
instead set `name`, `address` and `distance` and lack `displayName`,
`formattedAddress` and `types`. -/
structure JsPlace where
  id : String
  displayName : Option String
  name : Option String
  formattedAddress : Option String
  address : Option String
  location : Option Location
  rating : Option ℚ
  userRatingCount : Option ℕ
  photos : List Photo
  websiteUri : Option String
  types : List String
  distance : Option ℚ
  deriving DecidableEq

/-- The canonical place shape returned to the client (part_004 lines
1997-2013).  The derived `mapsUrl` string (URL-encoded text, line 2011) is
omitted: it is pure string formatting used by no claim. -/
structure Place where
  id : String
  name : String
  address : String
  location : Location
  rating : ℚ
  userRatingCount : ℕ
  distance : ℤ
  photos : List Photo
  websiteUri : String
  types : List String
  deriving DecidableEq

/-- A manually curated recommendation record (part_004 lines 126-165): the
`Place` shape plus provenance fields.  The `recommend` merge spreads the
record and overwrites `distance`. -/
structure Recommendation where
  id : String
  name : String
  address : String
  location : Location
  rating : ℚ
  userRatingCount : ℕ
  distance : ℤ
  description : String
  photos : List Photo
  websiteUri : String
  addedBy : String
  addedDate : String
  featured : Bool
  deriving DecidableEq

/-- Error classes the provider adapter distinguishes (part_004 lines 415-447:
HTTP 403, 400, 429, network errors, and a generic rest). -/
inductive ProviderError where
  | permissionDenied
  | invalidRequest
  | rateLimited
  | transient
  deriving DecidableEq

/-- The observed outcome of one provider HTTP call: a successful response
carrying `response.data.places || []`, or a classified error. -/
inductive ProviderResponse where
  | success : List JsPlace → ProviderResponse
  | failure : ProviderError → ProviderResponse
  deriving DecidableEq

/-! ### JS truthiness helpers -/

/-- JS truthiness of an optional string: absent and `""` are falsy. -/
def strTruthy : Option String → Bool
  | some s => s ≠ ""
  | none => false

/-- The JS idiom `s || dflt` on an optional string. -/
def jsOrStr (o : Option String) (dflt : String) : String :=
  match o with
  | some s => if s = "" then dflt else s
  | none => dflt

/-- JS truthiness of an optional number: absent and `0` are falsy (`NaN`,
also falsy, has no `ℚ` counterpart and is out of scope). -/
def numTruthy : Option ℚ → Bool
  | some q => q ≠ 0
  | none => false

/-! ### String helpers

The handler uses `String.prototype.trim`, `split(',')`, the regex `/^\d+/`
and `String.prototype.includes`.  They are implemented here on character
lists so that all proofs can evaluate them. -/

/-- JS `trim()`: strip whitespace from both ends. -/
def trimChars (s : String) : String :=
  String.mk (((s.data.dropWhile Char.isWhitespace).reverse.dropWhile
    Char.isWhitespace).reverse)

/-- The condition `o && o.trim().length > 0` used by the final name fallback
(part_004 lines 1952, 1956, 1960). -/
def strTruthyTrim : Option String → Bool
  | some s => trimChars s ≠ ""
  | none => false

/-- Helper for `split(',')` on character lists. -/
def splitCommaAux : List Char → List Char → List (List Char)
  | [], acc => [acc.reverse]
  | c :: rest, acc =>
      if c = ',' then acc.reverse :: splitCommaAux rest []
      else splitCommaAux rest (c :: acc)

/-- JS `s.split(',')`. -/
def splitComma (s : String) : List String :=
  (splitCommaAux s.data []).map String.mk

/-- The regex test `trimmedPart.match(/^\d+/)` (part_004 line 1964). -/
def startsWithDigit (s : String) : Bool :=
  match s.data with
  | c :: _ => c.isDigit
  | [] => false

/-- Substring containment on character lists, for JS `includes`. -/
def containsSub (pat : List Char) : List Char → Bool
  | [] => pat.isEmpty
  | c :: rest => pat.isPrefixOf (c :: rest) || containsSub pat rest

/-- JS `s.includes(pat)`. -/
def containsStr (s pat : String) : Bool :=
  containsSub pat.data s.data

/-- Zero-padded four-digit rendering of a number below 10000. -/
def pad4 (n : ℕ) : String :=
  if n < 10 then "000" ++ toString n
  else if n < 100 then "00" ++ toString n
  else if n < 1000 then "0" ++ toString n
  else toString n

/-- JS `x.toFixed(4)` on a rational: round to four decimal places and
render. -/
def toFixed4 (q : ℚ) : String :=
  let n : ℤ := round (q * 10000)
  (if n < 0 then "-" else "") ++ toString (n.natAbs / 10000) ++ "." ++
    pad4 (n.natAbs % 10000)

/-! ### Constants (part_004 lines 64-105) -/

/-- Default radius in meters when the request omits it (line 66, env default). -/
def DEFAULT_SEARCH_RADIUS : ℤ := 2000

/-- Upper clamp for the search radius in meters (line 67, env default). -/
def MAX_SEARCH_RADIUS : ℤ := 10000

/-- The placeholder name used by the final per-category map and filtered out
at part_004 line 2014. -/
def unknownPlace : String := "Unknown Place"

/-- The `typeMap` table of the quaternary name fallback (part_004 lines
1972-1982). -/
def typeMap : String → Option String
  | "restaurant" => some "Restaurant"
  | "tourist_attraction" => some "Landmark"
  | "cafe" => some "Coffee Shop"
  | "museum" => some "Museum"
  | "art_gallery" => some "Art Gallery"
  | "library" => some "Library"
  | "cultural_center" => some "Cultural Center"
  | "establishment" => some "Establishment"
  | "point_of_interest" => some "Point of Interest"
  | _ => none

/-! ### Provider client adapter -/

/-- Model of `searchNearbyPlaces` (part_004 lines 338-449): on a successful
response it returns `response.data.places || []` unchanged (no radius filter,
no shaping); on any HTTP / network error it classifies the error and rethrows
(lines 415-447).  It makes exactly one provider call per invocation: there is
no retry and no backoff anywhere in the function, which is why its input is a
single `ProviderResponse`. -/
def searchNearbyPlaces : ProviderResponse → Except ProviderError (List JsPlace)
  | .success ps => .ok ps
  | .failure e => .error e

/-! ### Text-search sub-queries -/

/-- Conversion of one raw text-search record (part_004 lines 1616-1647 for
restaurants; the landmark, religious-site, culture, venue and coffee blocks
are identical up to the sentinel string).  Name extraction here checks only
truthiness (no trimming) and only the first comma segment of the address. -/
def convertTextPlace (sentinel : String) (lat lon : ℚ) (calcDist : DistFn)
    (p : JsPlace) : JsPlace :=
  let placeName :=
    if strTruthy p.displayName then p.displayName.getD ""
    else if strTruthy p.name then p.name.getD ""
    else if strTruthy p.formattedAddress then
      match splitComma (p.formattedAddress.getD "") with
      | [] => sentinel
      | part0 :: _ =>
          if trimChars part0 ≠ "" then trimChars part0 else sentinel
    else sentinel
  let loc := p.location.getD ⟨0, 0⟩
  { id := p.id
    displayName := none
    name := some placeName
    formattedAddress := none
    address := some (jsOrStr p.formattedAddress "Address not available")
    location := some loc
    rating := some (p.rating.getD 0)
    userRatingCount := some (p.userRatingCount.getD 0)
    photos := p.photos
    websiteUri := some (jsOrStr p.websiteUri "")
    types := []
    distance := some (calcDist lat lon loc.latitude loc.longitude) }

/-- One free-text sub-query with its enclosing `try/catch` (e.g. part_004
lines 1591-1654): an error is logged and absorbed, contributing zero records;
a successful response is converted and filtered by
`place.distance <= searchRadius && place.name !== sentinel`. -/
def textSubQuery (sentinel : String) (lat lon : ℚ) (searchRadius : ℤ)
    (calcDist : DistFn) (resp : ProviderResponse) : List JsPlace :=
  match resp with
  | .failure _ => []
  | .success ps =>
      (ps.map (convertTextPlace sentinel lat lon calcDist)).filter
        (fun p => decide (p.distance.getD 0 ≤ (searchRadius : ℚ)) &&
          decide (p.name.getD "" ≠ sentinel))

/-! ### Final per-category shaping (part_004 lines 1940-2014) -/

/-- First comma-separated address segment that is non-empty after trimming,
does not start with a digit, and contains neither "Vietnam" nor "Hanoi"
(the tertiary fallback loop, part_004 lines 1961-1968). -/
def firstGoodAddressPart : List String → Option String
  | [] => none
  | part :: rest =>
      let t := trimChars part
      if t ≠ "" && !startsWithDigit t && !containsStr t "Vietnam" &&
          !containsStr t "Hanoi" then some t
      else firstGoodAddressPart rest

/-- First taxonomy tag with a `typeMap` entry, mapped to its label (the
quaternary fallback loop, part_004 lines 1984-1989). -/
def firstMappedType : List String → Option String
  | [] => none
  | t :: rest =>
      match typeMap t with
      | some label => some label
      | none => firstMappedType rest

/-- The enhanced name extraction of the final per-category map (part_004
lines 1948-1990).  The four branches form an `if/else-if` chain on field
truthiness: the quaternary types-based branch runs only when the formatted
address itself is empty or whitespace, not when the tertiary loop was entered
and found no suitable segment. -/
def resolveName (p : JsPlace) (loc : Location) : String :=
  if strTruthyTrim p.displayName then trimChars (p.displayName.getD "")
  else if strTruthyTrim p.name then trimChars (p.name.getD "")
  else if strTruthyTrim p.formattedAddress then
    match firstGoodAddressPart (splitComma (p.formattedAddress.getD "")) with
    | some t => t
    | none => unknownPlace
  else if p.types ≠ [] then
    match firstMappedType p.types with
    | some label =>
        label ++ " at " ++ toFixed4 loc.latitude ++ "," ++
          toFixed4 loc.longitude
    | none => unknownPlace
  else unknownPlace

/-- Modelled from the spec and claim C3, NOT from the code: a strict
four-tier name fallback in which every tier, including the synthesized-label
tier, is attempted whenever all previous tiers produced an empty or
whitespace result.  `none` means the record cannot be named and is dropped.
The tier-3 segment rule reuses `firstGoodAddressPart`; the difference under
scrutiny is solely the tier ordering.  This definition is compared against
the code's `resolveName`. -/
def specResolveName (p : JsPlace) (loc : Location) : Option String :=
  if strTruthyTrim p.displayName then some (trimChars (p.displayName.getD ""))
  else if strTruthyTrim p.name then some (trimChars (p.name.getD ""))
  else
    match firstGoodAddressPart (splitComma (p.formattedAddress.getD "")) with
    | some t => some t
    | none =>
        match firstMappedType p.types with
        | some label =>
            some (label ++ " at " ++ toFixed4 loc.latitude ++ "," ++
              toFixed4 loc.longitude)
        | none => none

/-- The final map callback (part_004 lines 1940-2013): recomputes the
distance from `place.location` (a `TypeError` escapes to the per-category
catch when `location` is absent, modelled as `none`), resolves the name, and
builds the response shape. -/
def finalShape (lat lon : ℚ) (calcDist : DistFn) (p : JsPlace) :
    Option Place :=
  match p.location with
  | none => none
  | some loc =>
      some { id := p.id
             name := resolveName p loc
             address := jsOrStr p.formattedAddress ""
             location := loc
             rating := p.rating.getD 0
             userRatingCount := p.userRatingCount.getD 0
             distance := round (calcDist lat lon loc.latitude loc.longitude)
             photos := p.photos
             websiteUri := jsOrStr p.websiteUri ""
             types := p.types }

/-- The `allPlacesForCategory.map(...)` step; a thrown `TypeError` aborts the
whole map, so the result is `none` as soon as one record lacks `location`. -/
def shapeAll (lat lon : ℚ) (calcDist : DistFn) :
    List JsPlace → Option (List Place)
  | [] => some []
  | p :: rest =>
      match finalShape lat lon calcDist p, shapeAll lat lon calcDist rest with
      | some q, some qs => some (q :: qs)
      | _, _ => none

/-! ### Deduplication and ranking (part_004 lines 2016-2035) -/

/-- The `uniquePlaces` Map deduplication (part_004 lines 2018-2024): a record
is kept iff its `id` has not been seen before; insertion order is
preserved. -/
def dedupById (seen : List String) : List Place → List Place
  | [] => []
  | p :: rest =>
      if p.id ∈ seen then dedupById seen rest
      else p :: dedupById (p.id :: seen) rest

/-- The sort comparator of part_004 lines 2029-2035 as a total preorder:
`placeOrder a b` holds iff the comparator orders `a` before `b` or ties them
(higher rating first, then smaller distance first). -/
def placeOrder (a b : Place) : Prop :=
  b.rating < a.rating ∨ (a.rating = b.rating ∧ a.distance ≤ b.distance)

instance : DecidableRel placeOrder := fun a b => by
  unfold placeOrder; infer_instance

instance : IsTotal Place placeOrder where
  total a b := by
    unfold placeOrder
    rcases lt_trichotomy a.rating b.rating with h | h | h
    · exact Or.inr (Or.inl h)
    · rcases le_total a.distance b.distance with hd | hd
      · exact Or.inl (Or.inr ⟨h, hd⟩)
      · exact Or.inr (Or.inr ⟨h.symm, hd⟩)
    · exact Or.inl (Or.inl h)

instance : IsTrans Place placeOrder where
  trans a b c hab hbc := by
    unfold placeOrder at *
    rcases hab with h1 | ⟨h1, d1⟩
    · rcases hbc with h2 | ⟨h2, _⟩
      · exact Or.inl (h2.trans h1)
      · exact Or.inl (h2 ▸ h1)
    · rcases hbc with h2 | ⟨h2, d2⟩
      · exact Or.inl (h1 ▸ h2)
      · exact Or.inr ⟨h1.trans h2, d1.trans d2⟩

/-- The per-category sort (part_004 lines 2029-2035).  `Array.prototype.sort`
is stable (ECMAScript 2019), and a stable sort under a consistent comparator
has a unique result, so it is modelled by insertion sort under
`placeOrder`. -/
def rankPlaces (l : List Place) : List Place :=
  List.insertionSort placeOrder l

/-! ### One category of the handler loop (part_004 lines 1439-2043) -/

/-- The provider responses consumed by one category: one tag-based nearby
search followed by the category's free-text searches. -/
structure CategoryInput where
  tagResponse : ProviderResponse
  textResponses : List ProviderResponse
  deriving DecidableEq

/-- Merging of all sub-query results of one category into
`allPlacesForCategory`: tag-based records are appended raw (no radius filter,
no conversion); each text sub-query appends its converted, filtered records.
An error of the tag search propagates (it is not wrapped in an inner
`try/catch`), skipping the rest of the category. -/
def mergedCategory (sentinels : List String) (lat lon : ℚ) (searchRadius : ℤ)
    (calcDist : DistFn) (inp : CategoryInput) :
    Except ProviderError (List JsPlace) :=
  match searchNearbyPlaces inp.tagResponse with
  | .error e => .error e
  | .ok tagPlaces =>
      .ok (tagPlaces ++
        ((sentinels.zip inp.textResponses).map
          (fun st => textSubQuery st.1 lat lon searchRadius calcDist st.2)).flatten)

/-- One iteration of the category loop with its surrounding `try/catch`
(part_004 lines 1440-2042): merge the sub-queries, shape every record, drop
placeholder names, deduplicate by id, sort; any error inside the iteration
(tag sub-query failure, or a record without `location`) yields `[]` for the
category (line 2041). -/
def runCategory (sentinels : List String) (lat lon : ℚ) (searchRadius : ℤ)
    (calcDist : DistFn) (inp : CategoryInput) : List Place :=
  match mergedCategory sentinels lat lon searchRadius calcDist inp with
  | .error _ => []
  | .ok merged =>
      match shapeAll lat lon calcDist merged with
      | none => []
      | some shaped =>
          rankPlaces (dedupById []
            (shaped.filter (fun pl => decide (pl.name ≠ unknownPlace))))

/-- Sentinel names of the two restaurant text searches (part_004 lines 1618,
1684). -/
def restaurantSentinels : List String :=
  ["Unknown Restaurant", "Unknown Restaurant"]

/-- Sentinel names of the two landmark text searches (part_004 lines 1480,
1545). -/
def landmarkSentinels : List String :=
  ["Unknown Landmark", "Unknown Religious Site"]

/-- Sentinel names of the two culture text searches (part_004 lines 1757,
1822). -/
def cultureSentinels : List String :=
  ["Unknown Cultural Site", "Unknown Venue"]

/-- Sentinel name of the single coffee text search (part_004 line 1895). -/
def coffeeSentinels : List String :=
  ["Unknown Coffee Shop"]

/-! ### Manual recommendations merge (part_004 lines 1421-1436) -/

/-- The distance ordering used for `recommend` entries,
`(a, b) => a.distance - b.distance`. -/
def recOrder (a b : Recommendation) : Prop :=
  a.distance ≤ b.distance

instance : DecidableRel recOrder := fun a b => by
  unfold recOrder; infer_instance

instance : IsTotal Recommendation recOrder where
  total a b := le_total a.distance b.distance

instance : IsTrans Recommendation recOrder where
  trans _ _ _ hab hbc := le_trans hab hbc

/-- The spread `{...rec, distance: Math.round(calculateDistance(...))}`. -/
def withDistance (lat lon : ℚ) (calcDist : DistFn) (r : Recommendation) :
    Recommendation :=
  { r with distance :=
      round (calcDist lat lon r.location.latitude r.location.longitude) }

/-- The manual-recommendations block (part_004 lines 1421-1436): when the
snapshot is non-empty, compute rounded distances, keep entries with
`distance <= searchRadius`, sort ascending by distance, and attach the list
under the `recommend` key only when it is non-empty.  `none` means the key is
absent from the results object. -/
def mergeRecommendations (manualRecommendations : List Recommendation)
    (lat lon : ℚ) (searchRadius : ℤ) (calcDist : DistFn) :
    Option (List Recommendation) :=
  if manualRecommendations = [] then none
  else
    let withDist := manualRecommendations.map (withDistance lat lon calcDist)
    let within := withDist.filter (fun r => decide (r.distance ≤ searchRadius))
    let sorted := List.insertionSort recOrder within
    if sorted = [] then none else some sorted

/-! ### The handler (part_004 lines 1394-2094) -/

/-- The request body `{latitude, longitude, radius}`.  `radius` is `none`
when omitted (the destructuring default then applies); JS would also accept
numeric strings, which are out of scope. -/
structure SearchRequest where
  latitude : Option ℚ
  longitude : Option ℚ
  radius : Option ℤ
  deriving DecidableEq

/-- The provider responses consumed by the four `PLACE_TYPES` categories, in
loop order (part_004 lines 100-105). -/
structure ProviderResponses where
  restaurants : CategoryInput
  landmarks : CategoryInput
  coffee : CategoryInput
  culture : CategoryInput
  deriving DecidableEq

/-- The `results` object assembled by the handler: the reserved `recommend`
key (absent when `none`) plus one list per provider category. -/
structure SearchResults where
  recommend : Option (List Recommendation)
  restaurants : List Place
  landmarks : List Place
  coffee : List Place
  culture : List Place
  deriving DecidableEq

/-- The observable outcome of one handler invocation. -/
inductive HandlerResult where
  | badRequest : String → HandlerResult
  | serverError : String → HandlerResult
  | ok : ℤ → SearchResults → HandlerResult
  deriving DecidableEq

/-- The `POST /api/search-nearby` handler (part_004 lines 1394-2094):
validate `!latitude || !longitude` (400), check the API key (500), clamp the
radius with `Math.min(parseInt(radius), MAX_SEARCH_RADIUS)`, merge the manual
recommendations, then run the four category searches.  The success value
carries the clamped radius echoed in the response. -/
def searchNearbyHandler (req : SearchRequest) (apiKeyPresent : Bool)
    (manualRecommendations : List Recommendation) (calcDist : DistFn)
    (pr : ProviderResponses) : HandlerResult :=
  if !numTruthy req.latitude || !numTruthy req.longitude then
    .badRequest "Latitude and longitude are required"
  else if !apiKeyPresent then
    .serverError "Google Maps API key not configured"
  else
    match req.latitude, req.longitude with
    | some lat, some lon =>
        let searchRadius := min (req.radius.getD DEFAULT_SEARCH_RADIUS)
          MAX_SEARCH_RADIUS
        .ok searchRadius
          { recommend := mergeRecommendations manualRecommendations lat lon
              searchRadius calcDist
            restaurants := runCategory restaurantSentinels lat lon
              searchRadius calcDist pr.restaurants
            landmarks := runCategory landmarkSentinels lat lon searchRadius
              calcDist pr.landmarks
            coffee := runCategory coffeeSentinels lat lon searchRadius
              calcDist pr.coffee
            culture := runCategory cultureSentinels lat lon searchRadius
              calcDist pr.culture }
    | _, _ => .badRequest "Latitude and longitude are required"

/-- Projection: the results object of a successful invocation. -/
def resultsOf : HandlerResult → Option SearchResults
  | .ok _ r => some r
  | _ => none

/-- Projection: the clamped radius echoed by a successful invocation. -/
def radiusOf : HandlerResult → Option ℤ
  | .ok sr _ => some sr
  | _ => none

/-! ### Concrete inputs used by witnesses and counterexamples -/

/-- A category whose tag search succeeds with no records and which has no
text searches; used to keep unrelated categories inert in concrete runs. -/
def emptyCategoryInput : CategoryInput :=
  ⟨.success [], []⟩

/-- Provider responses in which every category is inert. -/
def emptyResponses : ProviderResponses :=
  ⟨emptyCategoryInput, emptyCategoryInput, emptyCategoryInput,
    emptyCategoryInput⟩

/-- A raw tag-search record whose `flatDist` distance from the test center
(21, 105) is 1110 m, outside the 1000 m radius used below. -/
def farRawPlace : JsPlace :=
  { id := "far1", displayName := some "Far Cafe", name := none,
    formattedAddress := some "1 Far Road, Elsewhere", address := none,
    location := some ⟨31, 105⟩, rating := some 4, userRatingCount := some 10,
    photos := [], websiteUri := none, types := [], distance := none }

/-- First curated record carrying the duplicated id. -/
def recDupA : Recommendation :=
  { id := "rec_dup", name := "Walking Tour A", address := "36 Streets",
    location := ⟨21, 106⟩, rating := 5, userRatingCount := 127,
    distance := 150, description := "first copy", photos := [],
    websiteUri := "", addedBy := "hm", addedDate := "2025-01-01",
    featured := true }

/-- Second curated record carrying the duplicated id. -/
def recDupB : Recommendation :=
  { id := "rec_dup", name := "Walking Tour B", address := "36 Streets",
    location := ⟨21, 106⟩, rating := 4, userRatingCount := 12,
    distance := 150, description := "second copy", photos := [],
    websiteUri := "", addedBy := "hm", addedDate := "2025-01-02",
    featured := false }

/-- A raw record with no display name, no plain name, a formatted address
whose segments are all numeric-leading or contain the country token, and a
recognized taxonomy tag. -/
def noNameRecord : JsPlace :=
  { id := "x3", displayName := none, name := none,
    formattedAddress := some "123 Main, Vietnam", address := none,
    location := some ⟨21, 105⟩, rating := none, userRatingCount := none,
    photos := [], websiteUri := none, types := ["restaurant"],
    distance := none }

/-- A raw text-search record whose `flatDist` distance from the test center
(21, 105) is 111 m, with a display name. -/
def nearTextRecord : JsPlace :=
  { id := "near1", displayName := some "Good Pho", name := none,
    formattedAddress := some "12 Hang Gai St", address := none,
    location := some ⟨21, 106⟩, rating := some (9 / 2),
    userRatingCount := some 50, photos := [], websiteUri := none,
    types := [], distance := none }

/-- The shaped output the pipeline produces for `nearTextRecord` after text
conversion; its address is empty although the provider supplied one. -/
def nearShapedPlace : Place :=
  { id := "near1", name := "Good Pho", address := "",
    location := ⟨21, 106⟩, rating := 9 / 2, userRatingCount := 50,
    distance := 111, photos := [], websiteUri := "", types := [] }

/-- A raw text-search record for the coffee category, 111 m from the test
center under `flatDist`. -/
def espressoTextRecord : JsPlace :=
  { id := "esp1", displayName := some "Espresso Corner", name := none,
    formattedAddress := some "7 Ta Hien St", address := none,
    location := some ⟨21, 106⟩, rating := some 4,
    userRatingCount := some 21, photos := [], websiteUri := none,
    types := [], distance := none }

/-- A curated record 111 m from the test center under `flatDist`. -/
def recNearLake : Recommendation :=
  { id := "rec_near", name := "Lakeside Walk", address := "Hoan Kiem Lake",
    location := ⟨21, 106⟩, rating := 4, userRatingCount := 89,
    distance := 300, description := "near the lake", photos := [],
    websiteUri := "", addedBy := "hm", addedDate := "2025-02-03",
    featured := true }

/-- A curated record 4995 m from the test center under `flatDist`, outside a
1000 m radius. -/
def recFarAway : Recommendation :=
  { id := "rec_far", name := "Distant Museum", address := "Far District",
    location := ⟨21, 150⟩, rating := 5, userRatingCount := 11,
    distance := 100, description := "far away", photos := [],
    websiteUri := "", addedBy := "hm", addedDate := "2025-02-04",
    featured := false }

/-! ### General lemmas about the pipeline -/

theorem round_le_int {d : ℚ} {n : ℤ} (h : d ≤ (n : ℚ)) : round d ≤ n := by
  rw [round_eq]
  have h2 : d + 1 / 2 ≤ (n : ℚ) + 1 / 2 := by linarith
  have h3 : ⌊d + 1 / 2⌋ ≤ ⌊(n : ℚ) + 1 / 2⌋ := Int.floor_le_floor h2
  have h4 : ⌊(n : ℚ) + 1 / 2⌋ = n := by
    rw [add_comm, Int.floor_add_int]
    have : ⌊(1 : ℚ) / 2⌋ = 0 := by
      rw [Int.floor_eq_zero_iff]
      constructor <;> norm_num
    omega
  omega

/-- Membership in a text sub-query output: the record is a converted raw
record and passed the radius filter. -/
theorem mem_textSubQuery {s : String} {lat lon : ℚ} {sr : ℤ} {cd : DistFn}
    {resp : ProviderResponse} {jp : JsPlace}
    (h : jp ∈ textSubQuery s lat lon sr cd resp) :
    (∃ r, jp = convertTextPlace s lat lon cd r) ∧
      jp.distance.getD 0 ≤ (sr : ℚ) := by
  cases resp with
  | failure e => simp [textSubQuery] at h
  | success ps =>
      simp only [textSubQuery, List.mem_filter, List.mem_map,
        Bool.and_eq_true, decide_eq_true_eq] at h
      obtain ⟨⟨r, _, hr⟩, hd, _⟩ := h
      exact ⟨⟨r, hr.symm⟩, hd⟩

/-- Structural fields of a converted text-search record: it has no
`formattedAddress`, stores the provider address under `address`, and its
stored distance is the one recomputed from its stored location. -/
theorem convertTextPlace_fields (s : String) (lat lon : ℚ) (cd : DistFn)
    (r : JsPlace) :
    (convertTextPlace s lat lon cd r).formattedAddress = none ∧
    (convertTextPlace s lat lon cd r).address =
      some (jsOrStr r.formattedAddress "Address not available") ∧
    (convertTextPlace s lat lon cd r).location =
      some (r.location.getD ⟨0, 0⟩) ∧
    (convertTextPlace s lat lon cd r).distance =
      some (cd lat lon (r.location.getD ⟨0, 0⟩).latitude
        (r.location.getD ⟨0, 0⟩).longitude) :=
  ⟨rfl, rfl, rfl, rfl⟩

/-- Shaping a record whose `location` is present. -/
theorem finalShape_of_location {lat lon : ℚ} {cd : DistFn} {p : JsPlace}
    {loc : Location} (h : p.location = some loc) :
    finalShape lat lon cd p =
      some { id := p.id
             name := resolveName p loc
             address := jsOrStr p.formattedAddress ""
             location := loc
             rating := p.rating.getD 0
             userRatingCount := p.userRatingCount.getD 0
             distance := round (cd lat lon loc.latitude loc.longitude)
             photos := p.photos
             websiteUri := jsOrStr p.websiteUri ""
             types := p.types } := by
  unfold finalShape
  rw [h]

/-! Lemmas about `dedupById`. -/

theorem dedupById_subset :
    ∀ (l : List Place) (seen : List String) (p : Place),
      p ∈ dedupById seen l → p ∈ l := by
  intro l
  induction l with
  | nil => intro seen p h; simp [dedupById] at h
  | cons q rest ih =>
      intro seen p h
      unfold dedupById at h
      by_cases hq : q.id ∈ seen
      · rw [if_pos hq] at h
        exact List.mem_cons_of_mem q (ih seen p h)
      · rw [if_neg hq] at h
        rcases List.mem_cons.1 h with h | h
        · exact h ▸ List.mem_cons_self q rest
        · exact List.mem_cons_of_mem q (ih (q.id :: seen) p h)

theorem dedupById_not_seen :
    ∀ (l : List Place) (seen : List String) (p : Place),
      p ∈ dedupById seen l → p.id ∉ seen := by
  intro l
  induction l with
  | nil => intro seen p h; simp [dedupById] at h
  | cons q rest ih =>
      intro seen p h
      unfold dedupById at h
      by_cases hq : q.id ∈ seen
      · rw [if_pos hq] at h
        exact ih seen p h
      · rw [if_neg hq] at h
        rcases List.mem_cons.1 h with h | h
        · exact h ▸ hq
        · intro hmem
          exact ih (q.id :: seen) p h (List.mem_cons_of_mem _ hmem)

theorem dedupById_nodup :
    ∀ (l : List Place) (seen : List String),
      ((dedupById seen l).map Place.id).Nodup := by
  intro l
  induction l with
  | nil => intro seen; simp [dedupById]
  | cons q rest ih =>
      intro seen
      unfold dedupById
      by_cases hq : q.id ∈ seen
      · rw [if_pos hq]; exact ih seen
      · rw [if_neg hq]
        simp only [List.map_cons, List.nodup_cons]
        refine ⟨?_, ih (q.id :: seen)⟩
        intro hmem
        rcases List.mem_map.1 hmem with ⟨x, hx, hid⟩
        exact dedupById_not_seen rest (q.id :: seen) x hx
          (hid ▸ List.mem_cons_self _ _)

/-- Every record kept by the deduplication is the first record of the input
carrying its id. -/
theorem dedupById_first_wins :
    ∀ (l : List Place) (seen : List String) (p : Place),
      p ∈ dedupById seen l →
        l.find? (fun x => x.id == p.id) = some p := by
  intro l
  induction l with
  | nil => intro seen p h; simp [dedupById] at h
  | cons q rest ih =>
      intro seen p h
      unfold dedupById at h
      by_cases hq : q.id ∈ seen
      · rw [if_pos hq] at h
        have hne : q.id ≠ p.id := by
          intro heq
          exact dedupById_not_seen rest seen p h (heq ▸ hq)
        rw [List.find?_cons_of_neg _ (by simpa using hne)]
        exact ih seen p h
      · rw [if_neg hq] at h
        rcases List.mem_cons.1 h with h | h
        · subst h
          rw [List.find?_cons_of_pos _ (by simp)]
        · have hne : q.id ≠ p.id := by
            intro heq
            exact dedupById_not_seen rest (q.id :: seen) p h
              (heq ▸ List.mem_cons_self _ _)
          rw [List.find?_cons_of_neg _ (by simpa using hne)]
          exact ih (q.id :: seen) p h

/-- No id of the input is lost by the deduplication (unless it was already
seen). -/
theorem dedupById_complete :
    ∀ (l : List Place) (seen : List String) (p : Place), p ∈ l →
      p.id ∈ seen ∨ ∃ q ∈ dedupById seen l, q.id = p.id := by
  intro l
  induction l with
  | nil => intro seen p h; simp at h
  | cons q rest ih =>
      intro seen p h
      unfold dedupById
      by_cases hq : q.id ∈ seen
      · rw [if_pos hq]
        rcases List.mem_cons.1 h with h | h
        · exact Or.inl (h ▸ hq)
        · exact ih seen p h
      · rw [if_neg hq]
        rcases List.mem_cons.1 h with h | h
        · exact Or.inr ⟨q, List.mem_cons_self _ _, by rw [h]⟩
        · rcases ih (q.id :: seen) p h with hs | ⟨x, hx, hid⟩
          · rcases List.mem_cons.1 hs with hs | hs
            · exact Or.inr ⟨q, List.mem_cons_self _ _, hs.symm⟩
            · exact Or.inl hs
          · exact Or.inr ⟨x, List.mem_cons_of_mem _ hx, hid⟩

/-! Stability of the ranking sort. -/

theorem filter_orderedInsert_pos (p : Place → Bool) (x : Place)
    (hx : p x = true) (hkey : ∀ y, p y = true → placeOrder x y) :
    ∀ l : List Place,
      (List.orderedInsert placeOrder x l).filter p = x :: l.filter p := by
  intro l
  induction l with
  | nil => simp [List.orderedInsert, hx]
  | cons b t ih =>
      by_cases hbx : placeOrder x b
      · rw [List.orderedInsert, if_pos hbx, List.filter_cons_of_pos hx]
      · have hpb : p b = false := by
          cases hpbv : p b with
          | false => rfl
          | true => exact absurd (hkey b hpbv) hbx
        rw [List.orderedInsert, if_neg hbx, List.filter_cons_of_neg (by simp [hpb]),
          ih, List.filter_cons_of_neg (by simp [hpb])]

theorem filter_orderedInsert_neg (p : Place → Bool) (x : Place)
    (hx : p x = false) :
    ∀ l : List Place,
      (List.orderedInsert placeOrder x l).filter p = l.filter p := by
  intro l
  induction l with
  | nil => simp [List.orderedInsert, hx]
  | cons b t ih =>
      by_cases hbx : placeOrder x b
      · rw [List.orderedInsert, if_pos hbx, List.filter_cons_of_neg (by simp [hx])]
      · rw [List.orderedInsert, if_neg hbx]
        cases hpb : p b with
        | false =>
            rw [List.filter_cons_of_neg (by simp [hpb]), ih,
              List.filter_cons_of_neg (by simp [hpb])]
        | true =>
            rw [List.filter_cons_of_pos hpb, ih, List.filter_cons_of_pos hpb]

/-- The ranking sort is stable: filtering to any class of records that are
pairwise tied under the comparator returns them in their original order. -/
theorem rankPlaces_stable (p : Place → Bool)
    (hkey : ∀ x y, p x = true → p y = true → placeOrder x y) :
    ∀ l : List Place, (rankPlaces l).filter p = l.filter p := by
  intro l
  induction l with
  | nil => rfl
  | cons a t ih =>
      show (List.orderedInsert placeOrder a (rankPlaces t)).filter p = _
      cases hpa : p a with
      | true =>
          rw [filter_orderedInsert_pos p a hpa (fun y hy => hkey a y hpa hy),
            ih, List.filter_cons_of_pos hpa]
      | false =>
          rw [filter_orderedInsert_neg p a hpa, ih,
            List.filter_cons_of_neg (by simp [hpa])]

/-! Lemmas about `runCategory`. -/

/-- A failed tag-based sub-query empties the whole category. -/
theorem runCategory_tag_failure (sentinels : List String) (lat lon : ℚ)
    (sr : ℤ) (cd : DistFn) (e : ProviderError)
    (texts : List ProviderResponse) :
    runCategory sentinels lat lon sr cd ⟨.failure e, texts⟩ = [] :=
  rfl

/-- A failed text sub-query contributes zero records. -/
theorem textSubQuery_failure (s : String) (lat lon : ℚ) (sr : ℤ)
    (cd : DistFn) (e : ProviderError) :
    textSubQuery s lat lon sr cd (.failure e) = [] :=
  rfl

/-- Every place returned for a category survived the placeholder-name
filter. -/
theorem mem_runCategory_name {sentinels : List String} {lat lon : ℚ}
    {sr : ℤ} {cd : DistFn} {inp : CategoryInput} {pl : Place}
    (h : pl ∈ runCategory sentinels lat lon sr cd inp) :
    pl.name ≠ unknownPlace := by
  unfold runCategory at h
  split at h
  · simp at h
  · split at h
    · simp at h
    · have h1 := (List.mem_insertionSort placeOrder).1 h
      have h2 := dedupById_subset _ _ _ h1
      have h3 := (List.mem_filter.1 h2).2
      simpa using h3

/-- The output of a category is a ranking of the deduplicated, shaped,
name-filtered merge whenever no error occurred. -/
theorem runCategory_ok {sentinels : List String} {lat lon : ℚ} {sr : ℤ}
    {cd : DistFn} {inp : CategoryInput} {merged : List JsPlace}
    {shaped : List Place}
    (hm : mergedCategory sentinels lat lon sr cd inp = .ok merged)
    (hs : shapeAll lat lon cd merged = some shaped) :
    runCategory sentinels lat lon sr cd inp =
      rankPlaces (dedupById []
        (shaped.filter (fun q => decide (q.name ≠ unknownPlace)))) := by
  unfold runCategory
  simp only [hm, hs]

/-! Lemmas about `mergeRecommendations`. -/

/-- The empty-snapshot guard is redundant: the merge result is determined by
the filtered, sorted list. -/
theorem mergeRecommendations_eq (recs : List Recommendation) (lat lon : ℚ)
    (sr : ℤ) (cd : DistFn) :
    mergeRecommendations recs lat lon sr cd =
      (if List.insertionSort recOrder
            ((recs.map (withDistance lat lon cd)).filter
              (fun r => decide (r.distance ≤ sr))) = [] then none
       else some (List.insertionSort recOrder
            ((recs.map (withDistance lat lon cd)).filter
              (fun r => decide (r.distance ≤ sr))))) := by
  cases recs with
  | nil => simp [mergeRecommendations, List.insertionSort]
  | cons r rest => simp [mergeRecommendations]

/-- A valid request with the API key present always produces a success
response built from the category pipeline. -/
theorem searchNearbyHandler_ok {req : SearchRequest} {lat lon : ℚ}
    (hlat : req.latitude = some lat) (hlon : req.longitude = some lon)
    (h1 : lat ≠ 0) (h2 : lon ≠ 0) (recs : List Recommendation) (cd : DistFn)
    (pr : ProviderResponses) :
    searchNearbyHandler req true recs cd pr =
      .ok (min (req.radius.getD DEFAULT_SEARCH_RADIUS) MAX_SEARCH_RADIUS)
        { recommend := mergeRecommendations recs lat lon
            (min (req.radius.getD DEFAULT_SEARCH_RADIUS) MAX_SEARCH_RADIUS) cd
          restaurants := runCategory restaurantSentinels lat lon
            (min (req.radius.getD DEFAULT_SEARCH_RADIUS) MAX_SEARCH_RADIUS) cd
            pr.restaurants
          landmarks := runCategory landmarkSentinels lat lon
            (min (req.radius.getD DEFAULT_SEARCH_RADIUS) MAX_SEARCH_RADIUS) cd
            pr.landmarks
          coffee := runCategory coffeeSentinels lat lon
            (min (req.radius.getD DEFAULT_SEARCH_RADIUS) MAX_SEARCH_RADIUS) cd
            pr.coffee
          culture := runCategory cultureSentinels lat lon
            (min (req.radius.getD DEFAULT_SEARCH_RADIUS) MAX_SEARCH_RADIUS) cd
            pr.culture } := by
  unfold searchNearbyHandler
  rw [hlat, hlon]
  simp [numTruthy, h1, h2]

/-! ### Claim theorems -/

/-- C5: every provider-category list of the returned map is sorted by the
comparator (rating descending, then distance ascending); the sort is stable,
so entries with equal rating and equal distance keep their relative pre-sort
order; and re-running the ranker on an already-sorted list yields the same
order. -/
theorem C5_ranking :
    (∀ (sentinels : List String) (lat lon : ℚ) (sr : ℤ) (cd : DistFn)
        (inp : CategoryInput),
        List.Sorted placeOrder (runCategory sentinels lat lon sr cd inp)) ∧
    (∀ (l : List Place) (r0 : ℚ) (d0 : ℤ),
        (rankPlaces l).filter
            (fun pl => decide (pl.rating = r0) && decide (pl.distance = d0)) =
          l.filter
            (fun pl => decide (pl.rating = r0) && decide (pl.distance = d0))) ∧
    (∀ l : List Place, rankPlaces (rankPlaces l) = rankPlaces l) := by
  refine ⟨?_, ?_, ?_⟩
  · intro sentinels lat lon sr cd inp
    unfold runCategory
    split
    · simp
    · split
      · simp
      · exact List.sorted_insertionSort placeOrder _
  · intro l r0 d0
    refine rankPlaces_stable _ ?_ l
    intro x y hx hy
    simp only [Bool.and_eq_true, decide_eq_true_eq] at hx hy
    exact Or.inr ⟨hx.1.trans hy.1.symm, le_of_eq (hx.2.trans hy.2.symm)⟩
  · intro l
    exact (List.sorted_insertionSort placeOrder l).insertionSort_eq

/-- C2 counterexample: the claim asserts that in every category list of the
returned map no two entries share an id, but the `recommend` list is never
deduplicated: a curated snapshot holding two records with the same id
returns both of them. -/
theorem C2_counterexample :
    (resultsOf (searchNearbyHandler ⟨some 21, some 105, some 1000⟩ true
        [recDupA, recDupB] flatDist emptyResponses)).map
      (fun r => (r.recommend.getD []).map Recommendation.id) =
      some ["rec_dup", "rec_dup"] ∧
    ¬ (["rec_dup", "rec_dup"] : List String).Nodup := by
  constructor
  · rw [searchNearbyHandler_ok rfl rfl (by norm_num) (by norm_num)]
    show some ((List.map Recommendation.id)
      ((mergeRecommendations [recDupA, recDupB] 21 105
        (min ((some (1000 : ℤ)).getD DEFAULT_SEARCH_RADIUS)
          MAX_SEARCH_RADIUS) flatDist).getD [])) = some ["rec_dup", "rec_dup"]
    have hmin : min ((some (1000 : ℤ)).getD DEFAULT_SEARCH_RADIUS)
        MAX_SEARCH_RADIUS = 1000 := by decide
    rw [hmin]
    have : mergeRecommendations [recDupA, recDupB] 21 105 1000 flatDist =
        some [withDistance 21 105 flatDist recDupA,
          withDistance 21 105 flatDist recDupB] := by
      with_unfolding_all decide
    rw [this]
    with_unfolding_all decide
  · decide

/-- C2 amended: in every provider-sourced category list no two entries share
an id; the deduplication keeps, for each id, exactly the first record in
merge order and drops later duplicates; the curated `recommend` list is not
deduplicated (see the counterexample). -/
theorem C2_dedup_amended :
    (∀ (sentinels : List String) (lat lon : ℚ) (sr : ℤ) (cd : DistFn)
        (inp : CategoryInput),
        ((runCategory sentinels lat lon sr cd inp).map Place.id).Nodup) ∧
    (∀ (l : List Place) (p : Place), p ∈ dedupById [] l →
        l.find? (fun x => x.id == p.id) = some p) ∧
    (∀ (l : List Place) (p : Place), p ∈ l →
        ∃ q ∈ dedupById [] l, q.id = p.id) := by
  refine ⟨?_, ?_, ?_⟩
  · intro sentinels lat lon sr cd inp
    unfold runCategory
    split
    · simp
    · split
      · simp
      · rename_i shaped _
        have hperm := (List.perm_insertionSort placeOrder
          (dedupById [] (shaped.filter
            (fun pl => decide (pl.name ≠ unknownPlace))))).map Place.id
        exact hperm.nodup_iff.2 (dedupById_nodup _ [])
  · intro l p h
    exact dedupById_first_wins l [] p h
  · intro l p h
    rcases dedupById_complete l [] p h with hs | hq
    · simp at hs
    · exact hq

/-- C2 witness: with a two-element list sharing one id, the deduplication
keeps the first record; looking up the shared id finds that record. -/
theorem C2_witness :
    ([⟨"d", "first", "", ⟨0, 0⟩, 5, 1, 10, [], "", []⟩,
      ⟨"d", "second", "", ⟨0, 0⟩, 4, 2, 20, [], "", []⟩] : List Place).find?
        (fun x => x.id == Place.id ⟨"d", "first", "", ⟨0, 0⟩, 5, 1, 10, [], "", []⟩) =
      some ⟨"d", "first", "", ⟨0, 0⟩, 5, 1, 10, [], "", []⟩ :=
  C2_dedup_amended.2.1 _ _ (by decide)

/-- The `recommend` key is absent exactly when no snapshot entry survives
the radius filter. -/
theorem mergeRecommendations_none_iff (recs : List Recommendation)
    (lat lon : ℚ) (sr : ℤ) (cd : DistFn) :
    mergeRecommendations recs lat lon sr cd = none ↔
      (recs.map (withDistance lat lon cd)).filter
        (fun r => decide (r.distance ≤ sr)) = [] := by
  rw [mergeRecommendations_eq]
  have key : List.insertionSort recOrder
      ((recs.map (withDistance lat lon cd)).filter
        (fun r => decide (r.distance ≤ sr))) = [] ↔
      (recs.map (withDistance lat lon cd)).filter
        (fun r => decide (r.distance ≤ sr)) = [] := by
    constructor
    · intro hnil
      have hperm := List.perm_insertionSort recOrder
        ((recs.map (withDistance lat lon cd)).filter
          (fun r => decide (r.distance ≤ sr)))
      rw [hnil] at hperm
      exact hperm.symm.eq_nil
    · intro hw
      rw [hw]
      rfl
  constructor
  · intro h
    by_cases hw : (recs.map (withDistance lat lon cd)).filter
        (fun r => decide (r.distance ≤ sr)) = []
    · exact hw
    · rw [if_neg (fun hnil => hw (key.1 hnil))] at h
      exact absurd h (by simp)
  · intro h
    rw [if_pos (key.2 h)]

/-- A present `recommend` list is sorted ascending by distance and holds
exactly the snapshot entries whose recomputed distance is within the
radius. -/
theorem mergeRecommendations_some {recs : List Recommendation}
    {lat lon : ℚ} {sr : ℤ} {cd : DistFn} {l : List Recommendation}
    (h : mergeRecommendations recs lat lon sr cd = some l) :
    List.Sorted recOrder l ∧
      l.Perm ((recs.map (withDistance lat lon cd)).filter
        (fun r => decide (r.distance ≤ sr))) ∧
      ∀ x ∈ l, x.distance ≤ sr := by
  rw [mergeRecommendations_eq] at h
  by_cases hnil : List.insertionSort recOrder
      ((recs.map (withDistance lat lon cd)).filter
        (fun r => decide (r.distance ≤ sr))) = []
  · rw [if_pos hnil] at h
    exact absurd h (by simp)
  · rw [if_neg hnil] at h
    have hl : l = List.insertionSort recOrder
        ((recs.map (withDistance lat lon cd)).filter
          (fun r => decide (r.distance ≤ sr))) := by
      exact (Option.some.injEq _ _ ▸ h).symm
    subst hl
    refine ⟨List.sorted_insertionSort recOrder _,
      List.perm_insertionSort recOrder _, ?_⟩
    intro x hx
    have hx2 := (List.mem_insertionSort recOrder).1 hx
    have := (List.mem_filter.1 hx2).2
    simpa using this

/-- C8: the curated overlay computes a distance for every snapshot entry,
keeps exactly the entries within the clamped radius, sorts them ascending by
distance with no rating-based reordering, and the `recommend` key is absent
exactly when no entry qualifies (in particular for an empty snapshot). -/
theorem C8_curated_overlay :
    (∀ (recs : List Recommendation) (lat lon : ℚ) (sr : ℤ) (cd : DistFn),
        (mergeRecommendations recs lat lon sr cd = none ↔
          (recs.map (withDistance lat lon cd)).filter
            (fun r => decide (r.distance ≤ sr)) = [])) ∧
    (∀ (recs : List Recommendation) (lat lon : ℚ) (sr : ℤ) (cd : DistFn)
        (l : List Recommendation),
        mergeRecommendations recs lat lon sr cd = some l →
          List.Sorted recOrder l ∧
          l.Perm ((recs.map (withDistance lat lon cd)).filter
            (fun r => decide (r.distance ≤ sr))) ∧
          ∀ x ∈ l, x.distance ≤ sr) :=
  ⟨fun recs lat lon sr cd =>
      mergeRecommendations_none_iff recs lat lon sr cd,
    fun _ _ _ _ _ _ h => mergeRecommendations_some h⟩

/-- C8 witness: with a snapshot of two entries, one 111 m and one 5550 m
from the center, and radius 1000, the `recommend` list holds exactly the
near entry, and every member is within the radius. -/
theorem C8_witness :
    mergeRecommendations [recNearLake, recFarAway] 21 105 1000 flatDist =
      some [withDistance 21 105 flatDist recNearLake] ∧
    (withDistance 21 105 flatDist recNearLake).distance ≤ 1000 := by
  have h : mergeRecommendations [recNearLake, recFarAway] 21 105 1000
      flatDist = some [withDistance 21 105 flatDist recNearLake] := by
    with_unfolding_all decide
  exact ⟨h, (C8_curated_overlay.2 _ _ _ _ _ _ h).2.2 _ (by simp)⟩

/-- C9: a request whose center latitude or longitude is exactly 0 (a valid
equator or prime-meridian coordinate) is rejected as missing coordinates
with a 400 error, for every radius, every API-key state, and independently
of any provider data (no provider call is reachable). -/
theorem C9_zero_coordinate :
    ∀ (req : SearchRequest) (b : Bool) (recs : List Recommendation)
      (cd : DistFn) (pr : ProviderResponses),
      (req.latitude = some 0 ∨ req.longitude = some 0) →
        searchNearbyHandler req b recs cd pr =
          .badRequest "Latitude and longitude are required" := by
  intro req b recs cd pr h
  unfold searchNearbyHandler
  rcases h with h | h <;> rw [h] <;> simp [numTruthy]

/-- C9 witness: the concrete request with latitude 0 is rejected. -/
theorem C9_witness :
    searchNearbyHandler ⟨some 0, some 105, some 500⟩ true [] flatDist
      emptyResponses = .badRequest "Latitude and longitude are required" :=
  C9_zero_coordinate _ _ _ _ _ (Or.inl rfl)

/-- C1 counterexample: a raw record returned by the tag-based nearby search
at distance 1110 m reaches the returned `restaurants` list although the
clamped radius is 1000 m; the handler never radius-filters tag-based
records. -/
theorem C1_counterexample :
    (resultsOf (searchNearbyHandler ⟨some 21, some 105, some 1000⟩ true []
        flatDist ⟨⟨.success [farRawPlace], [.success [], .success []]⟩,
          emptyCategoryInput, emptyCategoryInput, emptyCategoryInput⟩)).map
      (fun r => r.restaurants.map Place.distance) = some [1110] ∧
    radiusOf (searchNearbyHandler ⟨some 21, some 105, some 1000⟩ true []
        flatDist ⟨⟨.success [farRawPlace], [.success [], .success []]⟩,
          emptyCategoryInput, emptyCategoryInput, emptyCategoryInput⟩) =
      some 1000 ∧
    ¬ ((1110 : ℤ) ≤ 1000) := by
  refine ⟨?_, ?_, by decide⟩ <;> with_unfolding_all decide

/-- C1 amended: every place contributed by a free-text sub-query and every
curated entry has `distance` at most the clamped radius; records from the
tag-based nearby search are passed through without any radius check (see the
counterexample). -/
theorem C1_radius_amended :
    (∀ (s : String) (lat lon : ℚ) (sr : ℤ) (cd : DistFn)
        (resp : ProviderResponse) (jp : JsPlace) (pl : Place),
        jp ∈ textSubQuery s lat lon sr cd resp →
        finalShape lat lon cd jp = some pl → pl.distance ≤ sr) ∧
    (∀ (recs : List Recommendation) (lat lon : ℚ) (sr : ℤ) (cd : DistFn)
        (l : List Recommendation),
        mergeRecommendations recs lat lon sr cd = some l →
        ∀ x ∈ l, x.distance ≤ sr) := by
  constructor
  · intro s lat lon sr cd resp jp pl hm hf
    obtain ⟨⟨r, hr⟩, hd⟩ := mem_textSubQuery hm
    subst hr
    obtain ⟨_, _, hloc, hdist⟩ := convertTextPlace_fields s lat lon cd r
    rw [finalShape_of_location hloc] at hf
    have hpl := (Option.some.inj hf).symm
    rw [hpl]
    show round (cd lat lon (r.location.getD ⟨0, 0⟩).latitude
      (r.location.getD ⟨0, 0⟩).longitude) ≤ sr
    apply round_le_int
    rw [hdist] at hd
    simpa using hd
  · intro recs lat lon sr cd l h
    exact (mergeRecommendations_some h).2.2

/-- C1 witness: the converted near text record is a member of its sub-query
output, and its shaped output distance 111 is within the radius 1000. -/
theorem C1_witness :
    (convertTextPlace "Unknown Restaurant" 21 105 flatDist nearTextRecord ∈
      textSubQuery "Unknown Restaurant" 21 105 1000 flatDist
        (.success [nearTextRecord])) ∧
    nearShapedPlace.distance ≤ 1000 := by
  have hmem : convertTextPlace "Unknown Restaurant" 21 105 flatDist
      nearTextRecord ∈ textSubQuery "Unknown Restaurant" 21 105 1000 flatDist
        (.success [nearTextRecord]) := by
    with_unfolding_all decide
  have hshape : finalShape 21 105 flatDist (convertTextPlace
      "Unknown Restaurant" 21 105 flatDist nearTextRecord) =
      some nearShapedPlace := by
    with_unfolding_all decide
  exact ⟨hmem, C1_radius_amended.1 _ _ _ _ _ _ _ _ hmem hshape⟩

/-- C3 counterexample: a record with no display name, no plain name, a
formatted address yielding no usable segment, and a recognized taxonomy tag
is dropped by the code (its name stays the placeholder, so the category
output is empty), while the claim's strict four-tier chain would reach the
synthesized-label tier and keep it. -/
theorem C3_counterexample :
    resolveName noNameRecord ⟨21, 105⟩ = unknownPlace ∧
    specResolveName noNameRecord ⟨21, 105⟩ =
      some "Restaurant at 21.0000,105.0000" ∧
    runCategory restaurantSentinels 21 105 1000 flatDist
      ⟨.success [noNameRecord], [.success [], .success []]⟩ = [] := by
  refine ⟨?_, ?_, ?_⟩ <;> with_unfolding_all decide

/-- C3 amended: the name fallback follows the code's `if/else-if` chain:
trimmed display name, else trimmed plain name, else (when the formatted
address is non-blank) the first suitable address segment; when the address
was non-blank but yielded no suitable segment the name stays the placeholder
and the synthesized-label tier is NOT attempted; the label tier runs only
when the address itself is blank; records whose name stays the placeholder
are absent from the category output. -/
theorem C3_name_fallback_amended :
    (∀ (sentinels : List String) (lat lon : ℚ) (sr : ℤ) (cd : DistFn)
        (inp : CategoryInput) (pl : Place),
        pl ∈ runCategory sentinels lat lon sr cd inp →
        pl.name ≠ unknownPlace) ∧
    (∀ (p : JsPlace) (loc : Location), strTruthyTrim p.displayName = true →
        resolveName p loc = trimChars (p.displayName.getD "")) ∧
    (∀ (p : JsPlace) (loc : Location), strTruthyTrim p.displayName = false →
        strTruthyTrim p.name = true →
        resolveName p loc = trimChars (p.name.getD "")) ∧
    (∀ (p : JsPlace) (loc : Location) (t : String),
        strTruthyTrim p.displayName = false → strTruthyTrim p.name = false →
        strTruthyTrim p.formattedAddress = true →
        firstGoodAddressPart (splitComma (p.formattedAddress.getD "")) =
          some t →
        resolveName p loc = t) ∧
    (∀ (p : JsPlace) (loc : Location),
        strTruthyTrim p.displayName = false → strTruthyTrim p.name = false →
        strTruthyTrim p.formattedAddress = true →
        firstGoodAddressPart (splitComma (p.formattedAddress.getD "")) =
          none →
        resolveName p loc = unknownPlace) ∧
    (∀ (p : JsPlace) (loc : Location) (label : String),
        strTruthyTrim p.displayName = false → strTruthyTrim p.name = false →
        strTruthyTrim p.formattedAddress = false →
        firstMappedType p.types = some label →
        resolveName p loc = label ++ " at " ++ toFixed4 loc.latitude ++
          "," ++ toFixed4 loc.longitude) := by
  refine ⟨?_, ?_, ?_, ?_, ?_, ?_⟩
  · intro sentinels lat lon sr cd inp pl h
    exact mem_runCategory_name h
  · intro p loc h
    simp [resolveName, h]
  · intro p loc h1 h2
    simp [resolveName, h1, h2]
  · intro p loc t h1 h2 h3 h4
    simp [resolveName, h1, h2, h3, h4]
  · intro p loc h1 h2 h3 h4
    simp [resolveName, h1, h2, h3, h4]
  · intro p loc label h1 h2 h3 h4
    have hne : p.types ≠ [] := by
      intro hnil
      rw [hnil] at h4
      simp [firstMappedType] at h4
    simp [resolveName, h1, h2, h3, hne, h4]

/-- C3 witness: a record with display name " Cafe X " resolves to the
trimmed first tier. -/
theorem C3_witness :
    resolveName ⟨"w3", some " Cafe X ", none, none, none, some ⟨21, 105⟩,
      none, none, [], none, [], none⟩ ⟨21, 105⟩ =
      trimChars ((some " Cafe X " : Option String).getD "") :=
  C3_name_fallback_amended.2.1 _ _ (by decide)

/-- C4 counterexample: when the tag-based sub-query of the restaurants
category fails (here with a permission error) the whole category is emptied,
although its free-text sub-query had contributed a record; the claim's
promise that other sub-queries' records are still returned does not hold. -/
theorem C4_counterexample :
    (resultsOf (searchNearbyHandler ⟨some 21, some 105, some 1000⟩ true []
        flatDist ⟨⟨.failure .permissionDenied,
          [.success [nearTextRecord], .success []]⟩, emptyCategoryInput,
          emptyCategoryInput, emptyCategoryInput⟩)).map
      (fun r => r.restaurants) = some [] ∧
    textSubQuery "Unknown Restaurant" 21 105 1000 flatDist
      (.success [nearTextRecord]) =
      [convertTextPlace "Unknown Restaurant" 21 105 flatDist
        nearTextRecord] := by
  constructor <;> with_unfolding_all decide

/-- C4 amended: an error of a free-text sub-query is absorbed as zero
records for that sub-query only, but an error of the tag-based sub-query
empties its whole category (later sub-queries are skipped); no provider
error ever fails the overall request: a valid invocation always produces a
success response. -/
theorem C4_error_absorption_amended :
    (∀ (sentinels : List String) (lat lon : ℚ) (sr : ℤ) (cd : DistFn)
        (e : ProviderError) (texts : List ProviderResponse),
        runCategory sentinels lat lon sr cd ⟨.failure e, texts⟩ = []) ∧
    (∀ (s : String) (lat lon : ℚ) (sr : ℤ) (cd : DistFn)
        (e : ProviderError),
        textSubQuery s lat lon sr cd (.failure e) = []) ∧
    (∀ (req : SearchRequest) (lat lon : ℚ) (recs : List Recommendation)
        (cd : DistFn) (pr : ProviderResponses),
        req.latitude = some lat → lat ≠ 0 → req.longitude = some lon →
        lon ≠ 0 →
        resultsOf (searchNearbyHandler req true recs cd pr) ≠ none) := by
  refine ⟨runCategory_tag_failure, textSubQuery_failure, ?_⟩
  intro req lat lon recs cd pr hlat h1 hlon h2
  rw [searchNearbyHandler_ok hlat hlon h1 h2]
  simp [resultsOf]

/-- C4 witness: a concrete valid request yields a success response. -/
theorem C4_witness :
    resultsOf (searchNearbyHandler ⟨some 21, some 105, some 2000⟩ true []
      flatDist emptyResponses) ≠ none :=
  C4_error_absorption_amended.2.2 _ 21 105 _ _ _ rfl (by norm_num) rfl
    (by norm_num)

/-- C6 counterexample: a request with valid coordinates and radius 0 is not
rejected: validation passes, the provider pipeline runs, and a success
response with clamped radius 0 is returned, although the claim requires a
validation failure for every radius at most 0. -/
theorem C6_counterexample :
    searchNearbyHandler ⟨some 21, some 105, some 0⟩ true [] flatDist
      emptyResponses = .ok 0 ⟨none, [], [], [], []⟩ := by
  with_unfolding_all decide

/-- C6 amended: validation rejects exactly the requests whose latitude or
longitude is missing or zero (JS falsy); the radius is clamped from above by
the maximum but has no lower bound check, so any radius, including zero and
negative values, proceeds to the provider pipeline and is echoed back. -/
theorem C6_validation_amended :
    (∀ (req : SearchRequest) (recs : List Recommendation) (cd : DistFn)
        (pr : ProviderResponses),
        (numTruthy req.latitude = false ∨ numTruthy req.longitude = false) →
        searchNearbyHandler req true recs cd pr =
          .badRequest "Latitude and longitude are required") ∧
    (∀ (req : SearchRequest) (lat lon : ℚ) (recs : List Recommendation)
        (cd : DistFn) (pr : ProviderResponses),
        req.latitude = some lat → lat ≠ 0 → req.longitude = some lon →
        lon ≠ 0 →
        radiusOf (searchNearbyHandler req true recs cd pr) =
          some (min (req.radius.getD DEFAULT_SEARCH_RADIUS)
            MAX_SEARCH_RADIUS)) := by
  constructor
  · intro req recs cd pr h
    unfold searchNearbyHandler
    rcases h with h | h <;> simp [h]
  · intro req lat lon recs cd pr hlat h1 hlon h2
    rw [searchNearbyHandler_ok hlat hlon h1 h2]
    rfl

/-- C6 witness: a request missing its latitude is rejected, and a request
with radius -5 passes validation and echoes the unclamped negative
radius. -/
theorem C6_witness :
    searchNearbyHandler ⟨none, some 105, some 500⟩ true [] flatDist
      emptyResponses = .badRequest "Latitude and longitude are required" ∧
    radiusOf (searchNearbyHandler ⟨some 21, some 105, some (-5)⟩ true []
      flatDist emptyResponses) = some (-5) := by
  constructor
  · exact C6_validation_amended.1 _ _ _ _ (Or.inl rfl)
  · rw [C6_validation_amended.2 _ 21 105 [] flatDist emptyResponses rfl
      (by norm_num) rfl (by norm_num)]
    decide

/-- C7 counterexample: a rate-limited response makes `searchNearbyPlaces`
throw immediately; there is no backoff and no retry, so the sub-query
contributes nothing.  For a tag-based sub-query the whole coffee category is
emptied even though its text sub-query had contributed a record. -/
theorem C7_counterexample :
    searchNearbyPlaces (.failure .rateLimited) = .error .rateLimited ∧
    (resultsOf (searchNearbyHandler ⟨some 21, some 105, some 1000⟩ true []
        flatDist ⟨emptyCategoryInput, emptyCategoryInput,
          ⟨.failure .rateLimited, [.success [espressoTextRecord]]⟩,
          emptyCategoryInput⟩)).map (fun r => r.coffee) = some [] ∧
    textSubQuery "Unknown Coffee Shop" 21 105 1000 flatDist
      (.success [espressoTextRecord]) =
      [convertTextPlace "Unknown Coffee Shop" 21 105 flatDist
        espressoTextRecord] := by
  refine ⟨rfl, ?_, ?_⟩ <;> with_unfolding_all decide

/-- C7 amended: a `RateLimited` provider response is classified and
rethrown; the engine performs no backoff and no retry (each sub-query
consumes exactly one provider response): a rate-limited text sub-query
contributes zero records, and a rate-limited tag sub-query empties its whole
category; the request itself still completes. -/
theorem C7_rate_limit_amended :
    searchNearbyPlaces (.failure .rateLimited) = .error .rateLimited ∧
    (∀ (s : String) (lat lon : ℚ) (sr : ℤ) (cd : DistFn),
        textSubQuery s lat lon sr cd (.failure .rateLimited) = []) ∧
    (∀ (sentinels : List String) (lat lon : ℚ) (sr : ℤ) (cd : DistFn)
        (texts : List ProviderResponse),
        runCategory sentinels lat lon sr cd
          ⟨.failure .rateLimited, texts⟩ = []) :=
  ⟨rfl,
    fun s lat lon sr cd => textSubQuery_failure s lat lon sr cd .rateLimited,
    fun sentinels lat lon sr cd texts =>
      runCategory_tag_failure sentinels lat lon sr cd .rateLimited texts⟩

/-- C10: a converted text-search record stores the provider's formatted
address under the `address` field and has no `formattedAddress` field, so
the final shaping step, which reads only `formattedAddress`, gives every
text-search place an empty address. -/
theorem C10_text_address :
    (∀ (s : String) (lat lon : ℚ) (cd : DistFn) (r : JsPlace),
        (convertTextPlace s lat lon cd r).formattedAddress = none ∧
        (convertTextPlace s lat lon cd r).address =
          some (jsOrStr r.formattedAddress "Address not available")) ∧
    (∀ (s : String) (lat lon : ℚ) (sr : ℤ) (cd : DistFn)
        (resp : ProviderResponse) (jp : JsPlace) (pl : Place),
        jp ∈ textSubQuery s lat lon sr cd resp →
        finalShape lat lon cd jp = some pl → pl.address = "") := by
  constructor
  · intro s lat lon cd r
    exact ⟨(convertTextPlace_fields s lat lon cd r).1,
      (convertTextPlace_fields s lat lon cd r).2.1⟩
  · intro s lat lon sr cd resp jp pl hm hf
    obtain ⟨⟨r, hr⟩, _⟩ := mem_textSubQuery hm
    subst hr
    obtain ⟨hfa, _, hloc, _⟩ := convertTextPlace_fields s lat lon cd r
    rw [finalShape_of_location hloc] at hf
    have hpl := (Option.some.inj hf).symm
    rw [hpl]
    show jsOrStr (convertTextPlace s lat lon cd r).formattedAddress "" = ""
    rw [hfa]
    rfl

/-- C10 witness: the shaped output of the near text record has an empty
address although the provider supplied "12 Hang Gai St". -/
theorem C10_witness :
    nearTextRecord.formattedAddress = some "12 Hang Gai St" ∧
    (convertTextPlace "Unknown Restaurant" 21 105 flatDist
      nearTextRecord).formattedAddress = none ∧
    nearShapedPlace.address = "" := by
  have hmem : convertTextPlace "Unknown Restaurant" 21 105 flatDist
      nearTextRecord ∈ textSubQuery "Unknown Restaurant" 21 105 1000 flatDist
        (.success [nearTextRecord]) := by
    with_unfolding_all decide
  have hshape : finalShape 21 105 flatDist (convertTextPlace
      "Unknown Restaurant" 21 105 flatDist nearTextRecord) =
      some nearShapedPlace := by
    with_unfolding_all decide
  exact ⟨rfl, (C10_text_address.1 _ _ _ _ _).1,
    C10_text_address.2 _ _ _ 1000 _ _ _ _ hmem hshape⟩

end NearbySpots
